import Mathlib

/-
Formal model of the temperature-gauge widget (Temp_gauge.py).

Modelling conventions:
* Python floats are idealised as exact rationals; the non-finite values
  produced by the builtin float() (inf, -inf, nan) are carried by the
  PyFloat type, with Python comparison semantics (nan compares false).
* Every tkinter canvas call made by the program is recorded as a DrawCmd;
  a render produces the list of commands in execution order.
* math.radians, math.cos and math.sin are transcendental, so they are
  abstracted as an arbitrary Trig record of rational functions; all
  geometric statements are uniform in it.
* The builtin float() text parser is modelled on ASCII input: optional
  whitespace, optional sign, inf/infinity/nan (case-insensitive) or a
  decimal literal with optional fraction, exponent and digit-group
  underscores.
-/

namespace TempGauge

/-- MIN_VALUE = 0 (Temp_gauge.py line 6). -/
def MIN_VALUE : ℤ := 0

/-- MAX_VALUE = 100 (line 7). -/
def MAX_VALUE : ℤ := 100

/-- NORMAL_MIN = 20 (line 8). -/
def NORMAL_MIN : ℤ := 20

/-- NORMAL_MAX = 30 (line 9). -/
def NORMAL_MAX : ℤ := 30

/-- GAUGE_VERTICAL_OFFSET = 0.65 (line 12). -/
def GAUGE_VERTICAL_OFFSET : ℚ := 65 / 100

/-- GAUGE_SIZE_RATIO = 3 (line 13). -/
def GAUGE_SIZE_RATIO : ℚ := 3

/-- TICK_INTERVAL = 20 (line 16). -/
def TICK_INTERVAL : ℤ := 20

/-- TICK_LENGTH = 10 (line 17). -/
def TICK_LENGTH : ℚ := 10

/-- LABEL_OFFSET = 15 (line 18). -/
def LABEL_OFFSET : ℚ := 15

/-- NEEDLE_MARGIN = 25 (line 19). -/
def NEEDLE_MARGIN : ℚ := 25

/-- VALUE_TEXT_OFFSET = 40 (line 20). -/
def VALUE_TEXT_OFFSET : ℚ := 40

/-- SHADOW_OFFSET = 4 (line 21). -/
def SHADOW_OFFSET : ℚ := 4

/-- ARC_WIDTH = 6 (line 22). -/
def ARC_WIDTH : ℚ := 6

/-- CENTER_CIRCLE_RADIUS = 8 (line 23). -/
def CENTER_CIRCLE_RADIUS : ℚ := 8

/-- SHADOW_THICKNESS = 8 (line 24). -/
def SHADOW_THICKNESS : ℚ := 8

/-- Font descriptor, mirroring the Python font tuples (family, size, style). -/
structure Font where
  family : String
  size : ℤ
  style : String
deriving DecidableEq, Repr

/-- FONT_MAIN (line 32). -/
def FONT_MAIN : Font := ⟨"Helvetica", 12, "bold"⟩

/-- FONT_LABEL (line 33). -/
def FONT_LABEL : Font := ⟨"Helvetica", 10, ""⟩

/-- FONT_DISPLAY (line 35). -/
def FONT_DISPLAY : Font := ⟨"Helvetica", 16, "bold"⟩

/-- COLOR_GAUGE_OUTLINE (line 39). -/
def COLOR_GAUGE_OUTLINE : String := "#444"

/-- COLOR_TICK (line 40). -/
def COLOR_TICK : String := "#333"

/-- COLOR_TEXT (line 41). -/
def COLOR_TEXT : String := "#222"

/-- COLOR_SHADOW (line 42). -/
def COLOR_SHADOW : String := "#ddd"

/-- COLOR_NEEDLE_COLD (line 46). -/
def COLOR_NEEDLE_COLD : String := "#0077b6"

/-- COLOR_NEEDLE_NORMAL (line 47). -/
def COLOR_NEEDLE_NORMAL : String := "#2d6a4f"

/-- COLOR_NEEDLE_HOT (line 48). -/
def COLOR_NEEDLE_HOT : String := "#d90429"

/-- A Python float value: a finite rational, an infinity, or nan. -/
inductive PyFloat where
  | finite (q : ℚ)
  | inf
  | negInf
  | nan
deriving DecidableEq, Repr

/-- Python `<` on floats: nan compares false with everything. -/
def pyLt : PyFloat → PyFloat → Bool
  | PyFloat.nan, _ => false
  | _, PyFloat.nan => false
  | PyFloat.negInf, PyFloat.negInf => false
  | PyFloat.negInf, _ => true
  | PyFloat.inf, _ => false
  | PyFloat.finite _, PyFloat.inf => true
  | PyFloat.finite _, PyFloat.negInf => false
  | PyFloat.finite a, PyFloat.finite b => decide (a < b)

/-- Whitespace stripped by Python float() (ASCII fragment). -/
def isPyWs (c : Char) : Bool :=
  c = ' ' || c = '\t' || c = '\n' || c = '\r' || c.toNat = 11 || c.toNat = 12

/-- Strip leading and trailing whitespace. -/
def stripWs (cs : List Char) : List Char :=
  ((cs.dropWhile isPyWs).reverse.dropWhile isPyWs).reverse

/-- Scan a digit run, allowing single underscores between digits.
Returns (accumulated value, digit count, remaining input). -/
def digitsGo (acc cnt : Nat) : List Char → Nat × Nat × List Char
  | [] => (acc, cnt, [])
  | c :: rest =>
    if c.isDigit then digitsGo (10 * acc + (c.toNat - 48)) (cnt + 1) rest
    else if c = '_' then
      match rest with
      | d :: rest2 =>
        if d.isDigit then digitsGo (10 * acc + (d.toNat - 48)) (cnt + 1) rest2
        else (acc, cnt, c :: rest)
      | [] => (acc, cnt, [c])
    else (acc, cnt, c :: rest)

/-- A digitpart of the float grammar: at least one leading digit. -/
def parseDigitPart (cs : List Char) : Option (Nat × Nat × List Char) :=
  match cs with
  | c :: rest => if c.isDigit then some (digitsGo (c.toNat - 48) 1 rest) else none
  | [] => none

/-- The optional exponent: (e|E)(+|-)? digitpart. -/
def parseExpPart : List Char → Option (ℤ × List Char)
  | c :: rest =>
    if c = 'e' || c = 'E' then
      match rest with
      | s :: rest2 =>
        if s = '+' then (parseDigitPart rest2).map (fun p => ((p.1 : ℤ), p.2.2))
        else if s = '-' then (parseDigitPart rest2).map (fun p => (-(p.1 : ℤ), p.2.2))
        else (parseDigitPart rest).map (fun p => ((p.1 : ℤ), p.2.2))
      | [] => none
    else none
  | [] => none

/-- Unsigned decimal literal, split into raw numerals:
mantissa digits, number of fraction digits, exponent. -/
def parseNumRaw (cs : List Char) : Option ((Nat × Nat × ℤ) × List Char) :=
  let core : Option (Nat × Nat × List Char) :=
    match parseDigitPart cs with
    | some (ip, _, rest) =>
      match rest with
      | '.' :: r =>
        match parseDigitPart r with
        | some (fp, fc, r2) => some (ip * 10 ^ fc + fp, fc, r2)
        | none => some (ip, 0, r)
      | _ => some (ip, 0, rest)
    | none =>
      match cs with
      | '.' :: r =>
        match parseDigitPart r with
        | some (fp, fc, r2) => some (fp, fc, r2)
        | none => none
      | _ => none
  match core with
  | some (mant, fdigits, rest) =>
    match parseExpPart rest with
    | some (e, rest2) => some ((mant, fdigits, e), rest2)
    | none => some ((mant, fdigits, 0), rest)
  | none => none

/-- Assemble the rational value of a parsed literal. -/
def ratOfParts (mant fdigits : Nat) (e : ℤ) : ℚ :=
  (mant : ℚ) / 10 ^ fdigits * (10 : ℚ) ^ e

/-- The builtin float() applied to a text, modelled on ASCII input. -/
def pythonFloat (s : String) : Option PyFloat :=
  let cs := stripWs s.toList
  let signed : Bool × List Char :=
    match cs with
    | '+' :: r => (false, r)
    | '-' :: r => (true, r)
    | _ => (false, cs)
  let neg := signed.1
  let body := signed.2
  let lower := body.map Char.toLower
  if lower = "inf".toList || lower = "infinity".toList then
    some (if neg then PyFloat.negInf else PyFloat.inf)
  else if lower = "nan".toList then some PyFloat.nan
  else
    match parseNumRaw body with
    | some ((mant, fdigits, e), []) =>
      some (PyFloat.finite (if neg then -(ratOfParts mant fdigits e) else ratOfParts mant fdigits e))
    | _ => none

/-- Python range(start, stop, step) for a positive step. -/
def pyRange (start stop step : ℤ) : List ℤ :=
  (List.range ((stop - start + step - 1) / step).toNat).map (fun i => start + step * (i : ℤ))

/-- Round to the nearest integer, ties to even (Python float formatting). -/
def roundTiesEven (q : ℚ) : ℤ :=
  let f := ⌊q⌋
  let r := q - (f : ℚ)
  if r < 1 / 2 then f
  else if 1 / 2 < r then f + 1
  else if f % 2 = 0 then f else f + 1

/-- The f-string format .1f applied to a (finite) value. -/
def fmtFixed1 (q : ℚ) : String :=
  let n := roundTiesEven (10 * |q|)
  (if q < 0 then "-" else "") ++ toString (n / 10) ++ "." ++ toString (n % 10)

/-- The transcendental helpers math.radians, math.cos, math.sin,
abstracted as arbitrary rational functions. -/
structure Trig where
  radians : ℚ → ℚ
  cos : ℚ → ℚ
  sin : ℚ → ℚ

/-- A concrete Trig instance, used to evaluate the model at sample inputs. -/
def idTrig : Trig := ⟨fun x => x, fun x => x, fun x => x⟩

/-- One tkinter canvas call, recorded with the arguments the program passes. -/
inductive DrawCmd where
  /-- canvas.delete("all") -/
  | deleteAll
  /-- create_oval(x1, y1, x2, y2, outline=, width=, fill=) -/
  | oval (x1 y1 x2 y2 : ℚ) (outline : String) (width : ℚ) (fill : String)
  /-- create_arc(x1, y1, x2, y2, start=, extent=, style=, width=, outline=) -/
  | arc (x1 y1 x2 y2 start extent : ℚ) (style : String) (width : ℚ) (outline : String)
  /-- create_line(x1, y1, x2, y2, fill=, width=, capstyle=) -/
  | line (x1 y1 x2 y2 : ℚ) (fill : String) (width : ℚ) (capstyle : String)
  /-- create_text(x, y, text=, font=, fill=) -/
  | text (x y : ℚ) (content : String) (font : Font) (fill : String)
deriving DecidableEq, Repr

/-- Tick mark and label for one value of the tick loop
(Temp_gauge.py lines 125-139). -/
def tickCmds (t : Trig) (center_x center_y radius : ℚ) (val : ℤ) : List DrawCmd :=
  let angle := 180 + ((val : ℚ) - (MIN_VALUE : ℚ)) * 180 / ((MAX_VALUE : ℚ) - (MIN_VALUE : ℚ))
  let rad := t.radians angle
  let x1 := center_x + (radius - TICK_LENGTH) * t.cos rad
  let y1 := center_y + (radius - TICK_LENGTH) * t.sin rad
  let x2 := center_x + radius * t.cos rad
  let y2 := center_y + radius * t.sin rad
  [DrawCmd.line x1 y1 x2 y2 COLOR_TICK 2 "",
   DrawCmd.text (x1 - LABEL_OFFSET * t.cos rad) (y1 - LABEL_OFFSET * t.sin rad)
     (toString val) FONT_LABEL COLOR_TEXT]

/-- GaugeApp.draw_gauge (lines 97-167): the list of canvas calls made by one
render, as a function of the canvas dimensions and the stored value. -/
def draw_gauge (t : Trig) (width height value : ℚ) : List DrawCmd :=
  let center_x := width / 2
  let center_y := height * GAUGE_VERTICAL_OFFSET
  let radius := min width height / GAUGE_SIZE_RATIO
  let ticks := (pyRange MIN_VALUE (MAX_VALUE + 1) TICK_INTERVAL).flatMap
    (tickCmds t center_x center_y radius)
  let pointer_angle := 180 + (value - (MIN_VALUE : ℚ)) * 180 / ((MAX_VALUE : ℚ) - (MIN_VALUE : ℚ))
  let rad := t.radians pointer_angle
  let pointer_x := center_x + (radius - NEEDLE_MARGIN) * t.cos rad
  let pointer_y := center_y + (radius - NEEDLE_MARGIN) * t.sin rad
  let color := if value < (NORMAL_MIN : ℚ) then COLOR_NEEDLE_COLD
    else if value > (NORMAL_MAX : ℚ) then COLOR_NEEDLE_HOT
    else COLOR_NEEDLE_NORMAL
  DrawCmd.deleteAll ::
  DrawCmd.oval (center_x - radius + SHADOW_OFFSET) (center_y - radius + SHADOW_OFFSET)
    (center_x + radius + SHADOW_OFFSET) (center_y + radius + SHADOW_OFFSET)
    COLOR_SHADOW SHADOW_THICKNESS "" ::
  DrawCmd.arc (center_x - radius) (center_y - radius) (center_x + radius) (center_y + radius)
    180 180 "arc" ARC_WIDTH COLOR_GAUGE_OUTLINE ::
  ticks ++
  [DrawCmd.line center_x center_y pointer_x pointer_y color 5 "round",
   DrawCmd.oval (center_x - CENTER_CIRCLE_RADIUS) (center_y - CENTER_CIRCLE_RADIUS)
     (center_x + CENTER_CIRCLE_RADIUS) (center_y + CENTER_CIRCLE_RADIUS) "" 1 "#111",
   DrawCmd.text center_x (center_y + VALUE_TEXT_OFFSET) (fmtFixed1 value ++ " °C")
     FONT_DISPLAY color]

/-- The body of draw_gauge with the gauge center and radius abstracted:
everything after the canvas clear, as a function of (center_x, center_y,
radius, value) only. -/
def gaugeBody (t : Trig) (center_x center_y radius value : ℚ) : List DrawCmd :=
  let ticks := (pyRange MIN_VALUE (MAX_VALUE + 1) TICK_INTERVAL).flatMap
    (tickCmds t center_x center_y radius)
  let pointer_angle := 180 + (value - (MIN_VALUE : ℚ)) * 180 / ((MAX_VALUE : ℚ) - (MIN_VALUE : ℚ))
  let rad := t.radians pointer_angle
  let pointer_x := center_x + (radius - NEEDLE_MARGIN) * t.cos rad
  let pointer_y := center_y + (radius - NEEDLE_MARGIN) * t.sin rad
  let color := if value < (NORMAL_MIN : ℚ) then COLOR_NEEDLE_COLD
    else if value > (NORMAL_MAX : ℚ) then COLOR_NEEDLE_HOT
    else COLOR_NEEDLE_NORMAL
  DrawCmd.oval (center_x - radius + SHADOW_OFFSET) (center_y - radius + SHADOW_OFFSET)
    (center_x + radius + SHADOW_OFFSET) (center_y + radius + SHADOW_OFFSET)
    COLOR_SHADOW SHADOW_THICKNESS "" ::
  DrawCmd.arc (center_x - radius) (center_y - radius) (center_x + radius) (center_y + radius)
    180 180 "arc" ARC_WIDTH COLOR_GAUGE_OUTLINE ::
  ticks ++
  [DrawCmd.line center_x center_y pointer_x pointer_y color 5 "round",
   DrawCmd.oval (center_x - CENTER_CIRCLE_RADIUS) (center_y - CENTER_CIRCLE_RADIUS)
     (center_x + CENTER_CIRCLE_RADIUS) (center_y + CENTER_CIRCLE_RADIUS) "" 1 "#111",
   DrawCmd.text center_x (center_y + VALUE_TEXT_OFFSET) (fmtFixed1 value ++ " °C")
     FONT_DISPLAY color]

/-- The needle angle formula of line 142, as a function of the value. -/
def needleAngle (v : ℚ) : ℚ :=
  180 + (v - (MIN_VALUE : ℚ)) * 180 / ((MAX_VALUE : ℚ) - (MIN_VALUE : ℚ))

/-- The three-way needle color classification of lines 148-153. -/
def needleColor (v : ℚ) : String :=
  if v < (NORMAL_MIN : ℚ) then COLOR_NEEDLE_COLD
  else if v > (NORMAL_MAX : ℚ) then COLOR_NEEDLE_HOT
  else COLOR_NEEDLE_NORMAL

/-- The needle line drawn by draw_gauge, written in terms of needleAngle and
needleColor. -/
def needleLineOf (t : Trig) (width height value : ℚ) : DrawCmd :=
  DrawCmd.line (width / 2) (height * GAUGE_VERTICAL_OFFSET)
    (width / 2 + (min width height / GAUGE_SIZE_RATIO - NEEDLE_MARGIN) *
      t.cos (t.radians (needleAngle value)))
    (height * GAUGE_VERTICAL_OFFSET + (min width height / GAUGE_SIZE_RATIO - NEEDLE_MARGIN) *
      t.sin (t.radians (needleAngle value)))
    (needleColor value) 5 "round"

/-- The single mutable field of GaugeApp (self.value). -/
structure GaugeState where
  value : PyFloat
deriving DecidableEq, Repr

/-- self.value = 25 at startup (line 55). -/
def initialState : GaugeState := { value := PyFloat.finite 25 }

/-- The canvas calls of the error branch of update_value (lines 178-185). -/
def errorDraw (width height : ℚ) : List DrawCmd :=
  [DrawCmd.deleteAll,
   DrawCmd.text (width / 2) (height / 2) "Enter a number between 0–100!"
     FONT_MAIN COLOR_NEEDLE_HOT]

/-- Redraw for a stored value.  A non-finite stored value makes the Tk call
for the needle fail after the canvas is cleared; only the clear is recorded. -/
def drawForValue (t : Trig) (width height : ℚ) : PyFloat → List DrawCmd
  | PyFloat.finite q => draw_gauge t width height q
  | _ => [DrawCmd.deleteAll]

/-- GaugeApp.update_value (lines 169-185): parse the entry text, range-check
it with `val < MIN_VALUE or val > MAX_VALUE`, store and redraw on success,
otherwise keep the state and draw the error message. -/
def update_value (t : Trig) (st : GaugeState) (width height : ℚ) (txt : String) :
    GaugeState × List DrawCmd :=
  match pythonFloat txt with
  | some val =>
    if pyLt val (PyFloat.finite (MIN_VALUE : ℚ)) || pyLt (PyFloat.finite (MAX_VALUE : ℚ)) val then
      (st, errorDraw width height)
    else
      ({ value := val }, drawForValue t width height val)
  | none => (st, errorDraw width height)

/-- GaugeApp.on_resize (lines 93-95): redraw with the new dimensions and the
current value; the state is untouched. -/
def on_resize (t : Trig) (st : GaugeState) (width height : ℚ) :
    GaugeState × List DrawCmd :=
  (st, drawForValue t width height st.value)

/-- Effect of one canvas call on the retained canvas items. -/
def applyStep (items : List DrawCmd) (c : DrawCmd) : List DrawCmd :=
  match c with
  | DrawCmd.deleteAll => []
  | _ => items ++ [c]

/-- Effect of a command sequence on the retained canvas items. -/
def applyCmds (items : List DrawCmd) (cmds : List DrawCmd) : List DrawCmd :=
  cmds.foldl applyStep items

theorem MIN_VALUE_q : ((MIN_VALUE : ℤ) : ℚ) = 0 := by norm_num [MIN_VALUE]

theorem MAX_VALUE_q : ((MAX_VALUE : ℤ) : ℚ) = 100 := by norm_num [MAX_VALUE]

theorem NORMAL_MIN_q : ((NORMAL_MIN : ℤ) : ℚ) = 20 := by norm_num [NORMAL_MIN]

theorem NORMAL_MAX_q : ((NORMAL_MAX : ℤ) : ℚ) = 30 := by norm_num [NORMAL_MAX]

set_option maxHeartbeats 2000000 in
/-- C1: the needle line emitted by a render (element 15 of the command list)
is placed at the angle needleAngle value = 180 + (value - MIN_VALUE) * 180 /
(MAX_VALUE - MIN_VALUE); this mapping is monotonically non-decreasing and
sends MIN_VALUE to 180 and MAX_VALUE to 360. -/
theorem needle_angle_spec :
    (∀ (t : Trig) (w h v : ℚ), (draw_gauge t w h v)[15]? = some (needleLineOf t w h v))
    ∧ (∀ a b : ℚ, a ≤ b → needleAngle a ≤ needleAngle b)
    ∧ needleAngle (MIN_VALUE : ℚ) = 180 ∧ needleAngle (MAX_VALUE : ℚ) = 360 := by
  refine ⟨fun _ _ _ _ => rfl, fun a b hab => ?_, ?_, ?_⟩
  · simp only [needleAngle, MIN_VALUE_q, MAX_VALUE_q]
    linarith
  · simp only [needleAngle, MIN_VALUE_q, MAX_VALUE_q]
    norm_num
  · simp only [needleAngle, MIN_VALUE_q, MAX_VALUE_q]
    norm_num

theorem needle_angle_spec_witness : needleAngle 40 ≤ needleAngle 75 :=
  needle_angle_spec.2.1 40 75 (by norm_num)

set_option maxHeartbeats 2000000 in
/-- C2: the needle/readout color is COLOR_NEEDLE_COLD below NORMAL_MIN,
COLOR_NEEDLE_HOT above NORMAL_MAX and COLOR_NEEDLE_NORMAL in between;
exactly one of the three classes applies, and both the needle line
(element 15) and the readout text (element 17) of a render carry this
color. -/
theorem needle_color_spec :
    ∀ (t : Trig) (w h v : ℚ),
      (v < (NORMAL_MIN : ℚ) → needleColor v = COLOR_NEEDLE_COLD)
      ∧ ((NORMAL_MAX : ℚ) < v → needleColor v = COLOR_NEEDLE_HOT)
      ∧ ((NORMAL_MIN : ℚ) ≤ v → v ≤ (NORMAL_MAX : ℚ) → needleColor v = COLOR_NEEDLE_NORMAL)
      ∧ (((if v < (NORMAL_MIN : ℚ) then 1 else 0) + (if (NORMAL_MAX : ℚ) < v then 1 else 0) +
          (if (NORMAL_MIN : ℚ) ≤ v ∧ v ≤ (NORMAL_MAX : ℚ) then 1 else 0) : ℕ) = 1)
      ∧ (draw_gauge t w h v)[15]? = some (needleLineOf t w h v)
      ∧ (draw_gauge t w h v)[17]? =
          some (DrawCmd.text (w / 2) (h * (65 / 100) + 40) (fmtFixed1 v ++ " °C")
            FONT_DISPLAY (needleColor v)) := by
  intro t w h v
  refine ⟨fun hc => ?_, fun hh => ?_, fun hn1 hn2 => ?_, ?_, rfl, rfl⟩
  · simp [needleColor, hc]
  · rw [NORMAL_MAX_q] at hh
    simp only [needleColor, NORMAL_MIN_q, NORMAL_MAX_q]
    rw [if_neg (by linarith), if_pos hh]
  · rw [NORMAL_MIN_q] at hn1
    rw [NORMAL_MAX_q] at hn2
    simp only [needleColor, NORMAL_MIN_q, NORMAL_MAX_q]
    rw [if_neg (by linarith), if_neg (by linarith)]
  · simp only [NORMAL_MIN_q, NORMAL_MAX_q]
    rcases lt_trichotomy v 20 with h1 | h1 | h1
    · rw [if_pos h1, if_neg (by linarith),
        if_neg (by rintro ⟨h2, -⟩; linarith)]
    · rw [if_neg (by linarith), if_neg (by linarith),
        if_pos ⟨by linarith, by linarith⟩]
    · rcases le_or_lt v 30 with h2 | h2
      · rw [if_neg (by linarith), if_neg (by linarith),
          if_pos ⟨by linarith, h2⟩]
      · rw [if_neg (by linarith), if_pos h2, if_neg (by rintro ⟨-, h3⟩; linarith)]

theorem needle_color_spec_witness :
    needleColor 10 = COLOR_NEEDLE_COLD ∧ needleColor 50 = COLOR_NEEDLE_HOT ∧
      needleColor 25 = COLOR_NEEDLE_NORMAL :=
  ⟨(needle_color_spec idTrig 520 430 10).1 (by rw [NORMAL_MIN_q]; norm_num),
   (needle_color_spec idTrig 520 430 50).2.1 (by rw [NORMAL_MAX_q]; norm_num),
   (needle_color_spec idTrig 520 430 25).2.2.1 (by rw [NORMAL_MIN_q]; norm_num)
     (by rw [NORMAL_MAX_q]; norm_num)⟩

/-- C3: whenever the entry text does not parse as a float, or the parsed
value fails the range check `val < MIN_VALUE or val > MAX_VALUE`, the update
leaves the state untouched and issues exactly a canvas clear followed by one
centered error message in the hot color. -/
theorem update_error_path :
    ∀ (t : Trig) (st : GaugeState) (w h : ℚ) (txt : String),
      (pythonFloat txt = none ∨
        ∃ val, pythonFloat txt = some val ∧
          (pyLt val (PyFloat.finite (MIN_VALUE : ℚ)) = true ∨
           pyLt (PyFloat.finite (MAX_VALUE : ℚ)) val = true)) →
      update_value t st w h txt =
        (st, [DrawCmd.deleteAll,
              DrawCmd.text (w / 2) (h / 2) "Enter a number between 0–100!"
                FONT_MAIN COLOR_NEEDLE_HOT]) := by
  intro t st w h txt hbad
  rcases hbad with hnone | ⟨val, hsome, hout⟩
  · simp [update_value, hnone, errorDraw]
  · rcases hout with hlo | hhi
    · simp [update_value, hsome, hlo, errorDraw]
    · simp [update_value, hsome, hhi, errorDraw]

theorem update_error_path_witness :
    update_value idTrig initialState 520 430 "abc" =
      (initialState,
       [DrawCmd.deleteAll,
        DrawCmd.text (520 / 2) (430 / 2) "Enter a number between 0–100!"
          FONT_MAIN COLOR_NEEDLE_HOT]) :=
  update_error_path idTrig initialState 520 430 "abc" (Or.inl rfl)

/-- C4: the entry text "nan" parses as a float, passes the range check
(`nan < 0` and `nan > 100` are both false in Python), and is stored: after
update_value the stored value is nan, which is not a finite value of
[MIN_VALUE, MAX_VALUE]. -/
theorem update_nan_stores_nan :
    pythonFloat "nan" = some PyFloat.nan
    ∧ (update_value idTrig initialState 520 430 "nan").1 = { value := PyFloat.nan } :=
  ⟨rfl, rfl⟩

set_option maxHeartbeats 2000000 in
/-- A full gauge render always issues 18 canvas calls. -/
theorem draw_gauge_length (t : Trig) (w h v : ℚ) : (draw_gauge t w h v).length = 18 := rfl

/-- C5: an entry text parsing exactly to MIN_VALUE or MAX_VALUE is accepted:
the value is stored and the full gauge (18 canvas calls) is drawn, which is
not the error rendering. -/
theorem update_accepts_boundary :
    ∀ (t : Trig) (st : GaugeState) (w h : ℚ) (txt : String) (q : ℚ),
      pythonFloat txt = some (PyFloat.finite q) →
      q = (MIN_VALUE : ℚ) ∨ q = (MAX_VALUE : ℚ) →
      update_value t st w h txt = ({ value := PyFloat.finite q }, draw_gauge t w h q)
      ∧ draw_gauge t w h q ≠ errorDraw w h := by
  intro t st w h txt q hsome hq
  have hlo : pyLt (PyFloat.finite q) (PyFloat.finite (MIN_VALUE : ℚ)) = false := by
    rcases hq with hq | hq <;> rw [hq] <;>
      simp [pyLt, MIN_VALUE_q, MAX_VALUE_q]
  have hhi : pyLt (PyFloat.finite (MAX_VALUE : ℚ)) (PyFloat.finite q) = false := by
    rcases hq with hq | hq <;> rw [hq] <;>
      simp [pyLt, MIN_VALUE_q, MAX_VALUE_q]
  constructor
  · simp [update_value, hsome, hlo, hhi, drawForValue]
  · intro heq
    have hlen := congrArg List.length heq
    rw [draw_gauge_length] at hlen
    simp [errorDraw] at hlen

theorem update_accepts_boundary_witness :
    update_value idTrig initialState 520 430 "0" =
      ({ value := PyFloat.finite 0 }, draw_gauge idTrig 520 430 0)
    ∧ draw_gauge idTrig 520 430 0 ≠ errorDraw 520 430 :=
  update_accepts_boundary idTrig initialState 520 430 "0" 0
    (by have h : pythonFloat "0" = some (PyFloat.finite (ratOfParts 0 0 0)) := rfl
        rw [h]; norm_num [ratOfParts])
    (Or.inl (by rw [MIN_VALUE_q]))

set_option maxHeartbeats 2000000 in
/-- C6: a render clears the canvas and then draws everything through
gaugeBody, whose only geometric inputs are the center (width / 2,
height * 0.65) and the radius min(width, height) / 3: every drawn element
is positioned relative to that center and radius. -/
theorem render_center_radius :
    ∀ (t : Trig) (w h v : ℚ),
      draw_gauge t w h v =
        DrawCmd.deleteAll :: gaugeBody t (w / 2) (h * (65 / 100)) (min w h / 3) v :=
  fun _ _ _ _ => rfl

set_option maxHeartbeats 2000000 in
/-- C7: the tick loop runs over exactly the values 0, 20, 40, 60, 80, 100
(range(MIN_VALUE, MAX_VALUE + 1, TICK_INTERVAL)); elements 3-14 of a render
are precisely the tick mark and numeric label of each of these values, and
each tick pair is placed on the circle at the angle needleAngle val, the
same linear mapping the needle uses. -/
theorem render_ticks_spec :
    (pyRange MIN_VALUE (MAX_VALUE + 1) TICK_INTERVAL = [0, 20, 40, 60, 80, 100])
    ∧ (∀ (t : Trig) (w h v : ℚ),
        List.take 12 (List.drop 3 (draw_gauge t w h v)) =
          ([0, 20, 40, 60, 80, 100] : List ℤ).flatMap
            (tickCmds t (w / 2) (h * (65 / 100)) (min w h / 3)))
    ∧ (∀ (t : Trig) (cx cy r : ℚ) (val : ℤ),
        tickCmds t cx cy r val =
          [DrawCmd.line (cx + (r - 10) * t.cos (t.radians (needleAngle (val : ℚ))))
             (cy + (r - 10) * t.sin (t.radians (needleAngle (val : ℚ))))
             (cx + r * t.cos (t.radians (needleAngle (val : ℚ))))
             (cy + r * t.sin (t.radians (needleAngle (val : ℚ)))) COLOR_TICK 2 "",
           DrawCmd.text
             (cx + (r - 10) * t.cos (t.radians (needleAngle (val : ℚ)))
               - 15 * t.cos (t.radians (needleAngle (val : ℚ))))
             (cy + (r - 10) * t.sin (t.radians (needleAngle (val : ℚ)))
               - 15 * t.sin (t.radians (needleAngle (val : ℚ))))
             (toString val) FONT_LABEL COLOR_TEXT]) :=
  ⟨by decide, fun _ _ _ _ => rfl, fun _ _ _ _ _ => rfl⟩

set_option maxHeartbeats 2000000 in
/-- C8: a render is a pure function of (width, height, value) - two calls
with the same arguments emit the same command sequence - and since the
sequence begins with a full canvas clear, its effect on the retained canvas
items is independent of the previous contents; in particular rendering
twice leaves exactly the items of a single render. -/
theorem render_idempotent :
    ∀ (t : Trig) (w h v : ℚ) (c c₁ c₂ : List DrawCmd),
      draw_gauge t w h v = draw_gauge t w h v
      ∧ applyCmds c₁ (draw_gauge t w h v) = applyCmds c₂ (draw_gauge t w h v)
      ∧ applyCmds (applyCmds c (draw_gauge t w h v)) (draw_gauge t w h v)
          = applyCmds c (draw_gauge t w h v) :=
  fun _ _ _ _ _ _ _ => ⟨rfl, rfl, rfl⟩

set_option maxHeartbeats 2000000 in
/-- The needle line of a render, element 15, in terms of needleAngle and
needleColor. -/
theorem needle_position (q : ℚ) (t : Trig) (w h : ℚ) :
    (draw_gauge t w h q)[15]? = some (needleLineOf t w h q) := rfl

/-- C9: a resize keeps the stored value and re-renders with the new
dimensions and the current value; the needle line after the resize is still
placed at needleAngle q with color needleColor q - both functions of the
value alone - while the center and radius follow the new dimensions. -/
theorem resize_preserves_state :
    ∀ (t : Trig) (st : GaugeState) (w h w2 h2 q : ℚ),
      (on_resize t st w h).1 = st
      ∧ (st.value = PyFloat.finite q → (on_resize t st w h).2 = draw_gauge t w h q)
      ∧ (draw_gauge t w2 h2 q)[15]? = some (needleLineOf t w2 h2 q) := by
  intro t st w h w2 h2 q
  refine ⟨rfl, fun hv => ?_, needle_position q t w2 h2⟩
  simp [on_resize, drawForValue, hv]

theorem resize_preserves_state_witness :
    (on_resize idTrig initialState 300 200).1 = initialState
    ∧ (on_resize idTrig initialState 300 200).2 = draw_gauge idTrig 300 200 25 :=
  ⟨(resize_preserves_state idTrig initialState 300 200 300 200 25).1,
   (resize_preserves_state idTrig initialState 300 200 300 200 25).2.1 rfl⟩

/-- C10: the update stores the parsed value and redraws the gauge exactly
when float() succeeds on the text and the parsed value makes both `val <
MIN_VALUE` and `val > MAX_VALUE` false; otherwise the state is kept and the
error message is drawn.  Texts with surrounding whitespace, an explicit
sign, or an exponent parse like Python float(): " 25 ", "+100" and "2.5e1"
are all accepted. -/
theorem update_accept_condition :
    (∀ (t : Trig) (st : GaugeState) (w h : ℚ) (txt : String) (val : PyFloat),
      pythonFloat txt = some val →
      pyLt val (PyFloat.finite (MIN_VALUE : ℚ)) = false →
      pyLt (PyFloat.finite (MAX_VALUE : ℚ)) val = false →
      update_value t st w h txt = ({ value := val }, drawForValue t w h val))
    ∧ (∀ (t : Trig) (st : GaugeState) (w h : ℚ) (txt : String),
        (pythonFloat txt = none ∨
          ∃ val, pythonFloat txt = some val ∧
            (pyLt val (PyFloat.finite (MIN_VALUE : ℚ)) = true ∨
             pyLt (PyFloat.finite (MAX_VALUE : ℚ)) val = true)) →
        update_value t st w h txt = (st, errorDraw w h))
    ∧ pythonFloat " 25 " = some (PyFloat.finite 25)
    ∧ pythonFloat "+100" = some (PyFloat.finite 100)
    ∧ pythonFloat "2.5e1" = some (PyFloat.finite 25) := by
  refine ⟨?_, ?_, ?_, ?_, ?_⟩
  · intro t st w h txt val hsome hlo hhi
    simp [update_value, hsome, hlo, hhi]
  · intro t st w h txt hbad
    rcases hbad with hnone | ⟨val, hsome, hout⟩
    · simp [update_value, hnone]
    · rcases hout with hlo | hhi
      · simp [update_value, hsome, hlo]
      · simp [update_value, hsome, hhi]
  · have h : pythonFloat " 25 " = some (PyFloat.finite (ratOfParts 25 0 0)) := rfl
    rw [h]; norm_num [ratOfParts]
  · have h : pythonFloat "+100" = some (PyFloat.finite (ratOfParts 100 0 0)) := rfl
    rw [h]; norm_num [ratOfParts]
  · have h : pythonFloat "2.5e1" = some (PyFloat.finite (ratOfParts 25 1 1)) := rfl
    rw [h]; norm_num [ratOfParts]

theorem update_accept_condition_witness :
    update_value idTrig initialState 520 430 " 25 " =
      ({ value := PyFloat.finite 25 }, drawForValue idTrig 520 430 (PyFloat.finite 25)) :=
  update_accept_condition.1 idTrig initialState 520 430 " 25 " (PyFloat.finite 25)
    (update_accept_condition.2.2.1)
    (by simp [pyLt, MIN_VALUE_q])
    (by simp [pyLt, MAX_VALUE_q]; norm_num)

end TempGauge
